import Mathlib

/-!
Verification of the thumbnail-grid pipeline in
`powerpoint-toolkit/scripts/thumbnails.py`.

The script converts a presentation deck to PDF via an external renderer
(`soffice`), rasterizes the PDF pages via `pdftoppm` (jpeg first, png as a
fallback), then composes the page images into a single labelled grid canvas.

The embedding models the pure grid-composition arithmetic directly from the
source, and models the two external processes through an `Env` record
describing what each invocation produced (exit code, stderr, timeout flag,
and the files observed in the temporary directory afterwards).
-/

/-- A decoded image; only its pixel dimensions matter to the layout code
(`images[0].width`, `images[0].height` in the source). -/
structure PILImage where
  width : Nat
  height : Nat
deriving DecidableEq, Repr

/-- `thumb_w = 400` (thumbnails.py line 52). -/
def thumb_w : Nat := 400

/-- `padding = 10` (thumbnails.py line 56). -/
def padding : Nat := 10

/-- `label_h = 20` (thumbnails.py line 57). -/
def label_h : Nat := 20

/-- `thumb_h = int(thumb_w * images[0].height / images[0].width)`
(thumbnails.py line 53): Python `int()` truncates the quotient toward zero,
which on nonnegative values is floor division. -/
def thumbH (first : PILImage) : Nat :=
  thumb_w * first.height / first.width

/-- Follows the spec's words (§4.4), for comparison with `thumbH`:
`thumb_h = round(thumb_w * first_image.height / first_image.width)`. -/
def thumbHSpec (first : PILImage) : Nat :=
  (round ((thumb_w : ℚ) * first.height / first.width)).toNat

/-- `rows = math.ceil(len(images) / cols)` (thumbnails.py line 55). -/
def rowsOf (n cols : Nat) : Nat :=
  ⌈(n : ℚ) / (cols : ℚ)⌉₊

/-- `grid_w = cols * (thumb_w + padding) + padding` (thumbnails.py line 59). -/
def gridW (cols : Nat) : Nat :=
  cols * (thumb_w + padding) + padding

/-- `grid_h = rows * (thumb_h + padding + label_h) + padding`
(thumbnails.py line 60). -/
def gridH (rows th : Nat) : Nat :=
  rows * (th + padding + label_h) + padding

/-- One iteration of the paint loop (thumbnails.py lines 67–75): where the
resized thumbnail is pasted, at what size, and the label text and position. -/
structure CellPaint where
  pasteX : Nat
  pasteY : Nat
  resizeW : Nat
  resizeH : Nat
  label : String
  labelX : Nat
  labelY : Nat
deriving DecidableEq, Repr

/-- The body of `for i, img in enumerate(images)`: setting
`r = i // cols`, `c = i % cols`, `x = padding + c*(thumb_w+padding)`,
`y = padding + r*(thumb_h+padding+label_h)`, the thumbnail is resized to
`(thumb_w, thumb_h)` and pasted at `(x, y + label_h)`, and
`f"Slide {i}"` is drawn at `(x + 4, y + 2)`. -/
def cellPaint (th cols i : Nat) : CellPaint :=
  let r := i / cols
  let c := i % cols
  let x := padding + c * (thumb_w + padding)
  let y := padding + r * (th + padding + label_h)
  { pasteX := x
    pasteY := y + label_h
    resizeW := thumb_w
    resizeH := th
    label := "Slide " ++ toString i
    labelX := x + 4
    labelY := y + 2 }

/-- The fully painted output canvas: its dimensions and every paste/label
operation performed on it, in loop order. -/
structure GridCanvas where
  width : Nat
  height : Nat
  cells : List CellPaint
deriving DecidableEq, Repr

/-- The grid-composition block of `generate_thumbnails`
(thumbnails.py lines 51–75), as a function of the decoded images and the
requested column count only. -/
def composeGrid (images : List PILImage) (cols : Nat) : GridCanvas :=
  let th := thumbH (images.headD ⟨1, 1⟩)
  let rows := rowsOf images.length cols
  { width := gridW cols
    height := gridH rows th
    cells := (List.range images.length).map (cellPaint th cols) }

/-! ## Arithmetic helpers -/

/-- `math.ceil(n / cols)` agrees with the natural-number ceiling division
`(n + cols - 1) / cols` whenever `cols > 0`. -/
theorem rowsOf_eq (n cols : Nat) (hc : 0 < cols) :
    rowsOf n cols = (n + cols - 1) / cols := by
  have hcq : (0 : ℚ) < (cols : ℚ) := by exact_mod_cast hc
  unfold rowsOf
  apply le_antisymm
  · apply Nat.ceil_le.mpr
    rw [div_le_iff₀ hcq]
    have h1 : n ≤ (n + cols - 1) / cols * cols := by
      rw [Nat.mul_comm]
      have h2 := Nat.div_add_mod (n + cols - 1) cols
      have h3 := Nat.mod_lt (n + cols - 1) hc
      omega
    exact_mod_cast h1
  · have h1 : (n : ℚ) / cols ≤ ⌈(n : ℚ) / (cols : ℚ)⌉₊ := Nat.le_ceil _
    rw [div_le_iff₀ hcq] at h1
    have h2 : n ≤ ⌈(n : ℚ) / (cols : ℚ)⌉₊ * cols := by exact_mod_cast h1
    apply (Nat.div_le_iff_le_mul_add_pred hc).mpr
    rw [Nat.mul_comm] at h2
    omega

theorem rowsOf_ten_four : rowsOf 10 4 = 3 := by
  rw [rowsOf_eq 10 4 (by omega)]

/-! ## The pipeline and its environment -/

/-- What one `subprocess.run(..., capture_output=True, text=True, timeout=60)`
invocation yielded: the completed process's exit code and captured stderr, or
a timeout (`subprocess.TimeoutExpired` is raised when the 60-second budget is
exceeded). -/
structure ProcResult where
  returncode : Int
  stderr : String
  timedOut : Bool
deriving DecidableEq, Repr

/-- Everything the two external converters are observed to do in one run:
the `soffice` invocation and the files it left in the temporary directory,
and the two potential `pdftoppm` invocations with the images their output
files decode to. -/
structure Env where
  /-- The `soffice --headless --convert-to pdf` invocation (lines 18–21). -/
  soffice : ProcResult
  /-- Whether `tmpdir/<stem>.pdf` exists after the render (line 24). -/
  pdfAtExpectedName : Bool
  /-- Whether `glob("*.pdf")` finds any file (lines 26–27). -/
  pdfGlobNonempty : Bool
  /-- The `pdftoppm -jpeg` invocation (lines 33–36). -/
  pdftoppmJpeg : ProcResult
  /-- Decoded images of `sorted(glob("slide-*.jpg"))` (lines 38, 51). -/
  jpegImages : List PILImage
  /-- The `pdftoppm -png` fallback invocation (lines 41–44). -/
  pdftoppmPng : ProcResult
  /-- Decoded images of `sorted(glob("slide-*.png"))` (lines 45, 51). -/
  pngImages : List PILImage
deriving DecidableEq, Repr

/-- The dictionary `generate_thumbnails` returns: either the success payload
`{"output", "slides", "grid"}` (line 83) or the error payload `{"error"}`
(lines 28, 48). -/
inductive PipelineResult where
  | ok (output : String) (slides : Nat) (grid : String)
  | err (msg : String)
deriving DecidableEq, Repr

/-- How a call to `generate_thumbnails` ends: a returned value, or an
uncaught Python exception (here only `subprocess.TimeoutExpired`). -/
inductive Outcome (α : Type) where
  | returned (a : α)
  | raised (exn : String)
deriving DecidableEq, Repr

/-- Observable side effects of one `generate_thumbnails` call: which external
processes were spawned and which files were written outside the scoped
temporary directory. -/
structure PipelineTrace where
  spawned : Nat
  primaryExtractionRun : Bool
  fallbackExtractionRun : Bool
  /-- Files persisted outside the temporary directory, each with the fully
  painted canvas it holds (`grid.save(output_path, "JPEG", quality=90)`). -/
  filesWritten : List (String × GridCanvas)
deriving DecidableEq, Repr

/-- `generate_thumbnails(filepath, output_prefix, cols, dpi)`
(thumbnails.py lines 11–83), with the two external converters abstracted by
`env`. Control flow mirrors the source: run `soffice`; look for the PDF by
expected name, else by glob, else return the conversion error built from
`soffice`'s stderr; run `pdftoppm -jpeg`; if no `slide-*.jpg` files appear,
run `pdftoppm -png`; if still no files, return the poppler error; otherwise
compose the grid from the decoded images, save it as `<prefix>.jpg`, and
return the success payload. A timed-out `subprocess.run` raises
`TimeoutExpired`, which nothing in the script catches. -/
def generate_thumbnails (env : Env) ( output_prefix : String) (cols : Nat) :
    Outcome PipelineResult × PipelineTrace :=
  if env.soffice.timedOut then
    (.raised "TimeoutExpired", ⟨1, false, false, []⟩)
  else if ¬ env.pdfAtExpectedName ∧ ¬ env.pdfGlobNonempty then
    (.returned (.err ("PDF conversion failed: " ++ env.soffice.stderr)),
     ⟨1, false, false, []⟩)
  else if env.pdftoppmJpeg.timedOut then
    (.raised "TimeoutExpired", ⟨2, true, false, []⟩)
  else if env.jpegImages.isEmpty then
    if env.pdftoppmPng.timedOut then
      (.raised "TimeoutExpired", ⟨3, true, true, []⟩)
    else if env.pngImages.isEmpty then
      (.returned (.err "Failed to convert PDF pages to images. Ensure pdftoppm (poppler) is installed."),
       ⟨3, true, true, []⟩)
    else
      let images := env.pngImages
      let output_path := output_prefix ++ ".jpg"
      (.returned (.ok output_path images.length
        (toString (rowsOf images.length cols) ++ "x" ++ toString cols)),
       ⟨3, true, true, [(output_path, composeGrid images cols)]⟩)
  else
    let images := env.jpegImages
    let output_path := output_prefix ++ ".jpg"
    (.returned (.ok output_path images.length
      (toString (rowsOf images.length cols) ++ "x" ++ toString cols)),
     ⟨2, true, false, [(output_path, composeGrid images cols)]⟩)

/-! ## The command-line entry point -/

/-- `json.dumps(result, indent=2)` (thumbnails.py line 100) for the two
dictionary shapes `generate_thumbnails` can return; the messages produced by
the script contain no characters JSON would escape. -/
def jsonDumps : PipelineResult → String
  | .ok output slides grid =>
      "\x7b\n  \"output\": \"" ++ output ++ "\",\n  \"slides\": " ++
        toString slides ++ ",\n  \"grid\": \"" ++ grid ++ "\"\n\x7d"
  | .err msg => "\x7b\n  \"error\": \"" ++ msg ++ "\"\n\x7d"

/-- The JSON error object the spec (§6) says is printed for a missing input
file: `\x7b"error": "File not found: <file>"\x7d`, written here in the
`indent=2` rendering `main` uses for every other JSON object it prints. -/
def jsonFileNotFound (file : String) : String :=
  jsonDumps (.err ("File not found: " ++ file))

/-- Observable behavior of one whole program run: what reached standard
output, the process exit status, how many external processes were spawned,
and which durable files were written. -/
structure MainOutcome where
  stdout : String
  exitCode : Nat
  spawned : Nat
  filesWritten : List (String × GridCanvas)
deriving DecidableEq, Repr

/-- `main()` (thumbnails.py lines 86–100), given whether `Path(args.file)`
exists and the external-process environment. If the file is missing, print
the plain f-string `"Error: File not found: <file>"` and `sys.exit(1)`
before anything else runs; otherwise call `generate_thumbnails` and print
`json.dumps(result, indent=2)`, falling off the end of `main` (exit 0).
An exception raised inside `generate_thumbnails` propagates: Python prints
a traceback to stderr and exits 1 with nothing on standard output. -/
def runMain (fileExists : Bool) (file : String) (env : Env)
    ( output_prefix : String) (cols : Nat) : MainOutcome :=
  if ¬ fileExists then
    { stdout := "Error: File not found: " ++ file
      exitCode := 1
      spawned := 0
      filesWritten := [] }
  else
    match generate_thumbnails env output_prefix cols with
    | (.returned r, t) =>
        { stdout := jsonDumps r
          exitCode := 0
          spawned := t.spawned
          filesWritten := t.filesWritten }
    | (.raised _, t) =>
        { stdout := ""
          exitCode := 1
          spawned := t.spawned
          filesWritten := t.filesWritten }

/-! ## Shared helper lemmas -/

/-- Cell `i` of the composed grid is exactly one loop iteration's paint. -/
theorem composeGrid_cells_getElem (images : List PILImage) (cols i : Nat)
    (hi : i < images.length) :
    (composeGrid images cols).cells[i]? =
      some (cellPaint (thumbH (images.headD ⟨1, 1⟩)) cols i) := by
  simp [composeGrid, List.getElem?_map, List.getElem?_range, hi]

/-! ## Claims -/

/-- C1: for every non-empty image sequence of length N and every requested
column count C ≥ 1, the composed grid satisfies rows = ceil(N / C),
canvas_w = C*(thumb_w+padding)+padding and
canvas_h = rows*(thumb_h+padding+label_h)+padding with thumb_w = 400,
padding = 10, label_h = 20; in particular N = 10, C = 4 gives rows = 3 and
canvas_w = 1650. -/
theorem composeGrid_geometry (images : List PILImage) (cols : Nat)
    (hne : images ≠ []) (hc : 1 ≤ cols) :
    (composeGrid images cols).width = cols * (thumb_w + padding) + padding ∧
    (composeGrid images cols).height =
      rowsOf images.length cols *
        (thumbH (images.headD ⟨1, 1⟩) + padding + label_h) + padding ∧
    rowsOf images.length cols = ⌈(images.length : ℚ) / cols⌉₊ ∧
    thumb_w = 400 ∧ padding = 10 ∧ label_h = 20 ∧
    rowsOf 10 4 = 3 ∧ gridW 4 = 1650 :=
  ⟨rfl, rfl, rfl, rfl, rfl, rfl, rowsOf_ten_four, by decide⟩

theorem composeGrid_geometry_witness :
    (([⟨4, 3⟩, ⟨4, 3⟩] : List PILImage) ≠ [] ∧ 1 ≤ 4) ∧
    ((composeGrid [⟨4, 3⟩, ⟨4, 3⟩] 4).width = 4 * (thumb_w + padding) + padding ∧
     (composeGrid [⟨4, 3⟩, ⟨4, 3⟩] 4).height =
       rowsOf ([⟨4, 3⟩, ⟨4, 3⟩] : List PILImage).length 4 *
         (thumbH (([⟨4, 3⟩, ⟨4, 3⟩] : List PILImage).headD ⟨1, 1⟩) +
           padding + label_h) + padding ∧
     rowsOf ([⟨4, 3⟩, ⟨4, 3⟩] : List PILImage).length 4 =
       ⌈((([⟨4, 3⟩, ⟨4, 3⟩] : List PILImage).length : ℚ)) / 4⌉₊ ∧
     thumb_w = 400 ∧ padding = 10 ∧ label_h = 20 ∧
     rowsOf 10 4 = 3 ∧ gridW 4 = 1650) :=
  ⟨⟨by decide, by decide⟩,
   composeGrid_geometry [⟨4, 3⟩, ⟨4, 3⟩] 4 (by decide) (by decide)⟩

/-- C2 counterexample: with a first image of width 3 and height 2 the code
computes `int(400 * 2 / 3) = 266`, while the claimed
`round(400 * 2 / 3) = 267`: the code truncates, it does not round. -/
theorem thumbH_truncates_not_rounds :
    thumbH ⟨3, 2⟩ = 266 ∧ thumbHSpec ⟨3, 2⟩ = 267 ∧
    thumbH ⟨3, 2⟩ ≠ thumbHSpec ⟨3, 2⟩ := by
  have h : thumbHSpec ⟨3, 2⟩ = 267 := by
    unfold thumbHSpec thumb_w
    have h1 : ((400 : Nat) : ℚ) * ((2 : Nat) : ℚ) / ((3 : Nat) : ℚ) = 800 / 3 := by
      norm_num
    have h2 : round ((800 : ℚ) / 3) = 267 := by
      rw [round_eq]
      have h3 : ((800 : ℚ) / 3 + 1 / 2) = 1603 / 6 := by norm_num
      rw [h3, Int.floor_eq_iff]
      norm_num
    simp only [h1, h2]
    rfl
  exact ⟨by decide, h, by rw [h]; decide⟩

/-- C2 (amended): the shared thumbnail height equals
`int(thumb_w * first.height / first.width)` — i.e. the quotient truncated
toward zero, not rounded — with thumb_w = 400, and every image in the
sequence, regardless of its own native aspect ratio, is resized to exactly
`(thumb_w, thumb_h)` with this single shared height. -/
theorem thumbnails_share_first_aspect (images : List PILImage) (cols : Nat)
    (hne : images ≠ []) :
    ∀ cell ∈ (composeGrid images cols).cells,
      cell.resizeW = thumb_w ∧
      cell.resizeH =
        thumb_w * (images.headD ⟨1, 1⟩).height / (images.headD ⟨1, 1⟩).width := by
  intro cell hcell
  simp only [composeGrid, List.mem_map, List.mem_range] at hcell
  obtain ⟨i, _, rfl⟩ := hcell
  exact ⟨rfl, rfl⟩

theorem thumbnails_share_first_aspect_witness :
    (([⟨3, 2⟩, ⟨7, 5⟩] : List PILImage) ≠ []) ∧
    (∀ cell ∈ (composeGrid [⟨3, 2⟩, ⟨7, 5⟩] 4).cells,
      cell.resizeW = thumb_w ∧
      cell.resizeH =
        thumb_w * (([⟨3, 2⟩, ⟨7, 5⟩] : List PILImage).headD ⟨1, 1⟩).height /
          (([⟨3, 2⟩, ⟨7, 5⟩] : List PILImage).headD ⟨1, 1⟩).width) :=
  ⟨by decide, thumbnails_share_first_aspect [⟨3, 2⟩, ⟨7, 5⟩] 4 (by decide)⟩

/-! ## Sample environments for concrete runs -/

/-- An external process that completed quietly. -/
def procOk : ProcResult := { returncode := 0, stderr := "", timedOut := false }

/-- A run where `soffice` leaves no PDF behind at all. -/
def envNoPdf : Env :=
  { soffice := { returncode := 0, stderr := "soffice wrote no pdf", timedOut := false }
    pdfAtExpectedName := false
    pdfGlobNonempty := false
    pdftoppmJpeg := procOk
    jpegImages := []
    pdftoppmPng := procOk
    pngImages := [] }

/-- A run where the primary jpeg extraction yields one page image. -/
def envPrimaryOk : Env :=
  { soffice := procOk
    pdfAtExpectedName := true
    pdfGlobNonempty := false
    pdftoppmJpeg := procOk
    jpegImages := [⟨4, 3⟩]
    pdftoppmPng := procOk
    pngImages := [] }

/-- Like `envPrimaryOk` but the renderer exits non-zero (with a warning on
stderr) while still producing the PDF. -/
def envNonzeroExit : Env :=
  { envPrimaryOk with
    soffice := { returncode := 1, stderr := "soffice warning", timedOut := false } }

/-- A run where the jpeg extraction yields nothing and the png fallback
yields two page images. -/
def envFallbackOk : Env :=
  { soffice := procOk
    pdfAtExpectedName := true
    pdfGlobNonempty := false
    pdftoppmJpeg := procOk
    jpegImages := []
    pdftoppmPng := procOk
    pngImages := [⟨4, 3⟩, ⟨8, 5⟩] }

/-- A run where both raster extractions yield nothing. -/
def envBothEmpty : Env :=
  { soffice := procOk
    pdfAtExpectedName := true
    pdfGlobNonempty := false
    pdftoppmJpeg := procOk
    jpegImages := []
    pdftoppmPng := procOk
    pngImages := [] }

/-- C3: the png fallback extraction runs if and only if the jpeg primary
extraction yields zero files, it runs at most once, and when both yield
zero files the pipeline returns the conversion-error payload with no file
written. (Stated for runs where the PDF stage succeeded and no external
process timed out, the situations in which extraction is reached.) -/
theorem fallback_iff_primary_empty (env : Env) (p : String) (c : Nat)
    (hpdf : env.pdfAtExpectedName = true ∨ env.pdfGlobNonempty = true)
    (ht1 : env.soffice.timedOut = false)
    (ht2 : env.pdftoppmJpeg.timedOut = false)
    (ht3 : env.pdftoppmPng.timedOut = false) :
    ((generate_thumbnails env p c).2.fallbackExtractionRun = true ↔
      env.jpegImages = []) ∧
    (env.jpegImages = [] ∧ env.pngImages = [] →
      generate_thumbnails env p c =
        (.returned (.err "Failed to convert PDF pages to images. Ensure pdftoppm (poppler) is installed."),
         ⟨3, true, true, []⟩)) := by
  have hcond : ¬ (env.pdfAtExpectedName = false ∧ env.pdfGlobNonempty = false) := by
    rcases hpdf with h | h <;> simp [h]
  unfold generate_thumbnails
  rcases hj : env.jpegImages with _ | ⟨img, rest⟩ <;>
    rcases hp : env.pngImages with _ | ⟨img2, rest2⟩ <;>
    simp [ht1, ht2, ht3, hcond, hj, hp]

theorem fallback_iff_primary_empty_witness :
    (envBothEmpty.pdfAtExpectedName = true ∨ envBothEmpty.pdfGlobNonempty = true) ∧
    envBothEmpty.soffice.timedOut = false ∧
    envBothEmpty.pdftoppmJpeg.timedOut = false ∧
    envBothEmpty.pdftoppmPng.timedOut = false ∧
    (((generate_thumbnails envBothEmpty "thumbnails" 4).2.fallbackExtractionRun = true ↔
        envBothEmpty.jpegImages = []) ∧
     (envBothEmpty.jpegImages = [] ∧ envBothEmpty.pngImages = [] →
       generate_thumbnails envBothEmpty "thumbnails" 4 =
         (.returned (.err "Failed to convert PDF pages to images. Ensure pdftoppm (poppler) is installed."),
          ⟨3, true, true, []⟩))) :=
  ⟨Or.inl rfl, rfl, rfl, rfl,
   fallback_iff_primary_empty envBothEmpty "thumbnails" 4
     (Or.inl rfl) rfl rfl rfl⟩

/-- `Outcome.isSuccess` is true exactly for a returned success payload. -/
def Outcome.isSuccess : Outcome PipelineResult → Bool
  | .returned (.ok ..) => true
  | _ => false

/-- `PipelineResult.isOk`: the result is the success variant. -/
def PipelineResult.isOk : PipelineResult → Bool
  | .ok .. => true
  | .err _ => false

/-- `PipelineResult.isErr`: the result is the error variant. -/
def PipelineResult.isErr : PipelineResult → Bool
  | .ok .. => false
  | .err _ => true

/-- Write discipline of the pipeline: the only file ever written is
`<prefix>.jpg` holding the composed grid, and it is written exactly on
runs that return the success payload. -/
theorem filesWritten_char (env : Env) (p : String) (c : Nat) :
    (generate_thumbnails env p c).2.filesWritten =
      (if (generate_thumbnails env p c).1.isSuccess = true
       then [(p ++ ".jpg",
              composeGrid
                (if env.jpegImages.isEmpty then env.pngImages else env.jpegImages)
                c)]
       else []) := by
  unfold generate_thumbnails
  repeat' split
  all_goals simp_all [Outcome.isSuccess]

/-- C4 counterexample: for the missing input file `missing.pptx` the program
prints the plain f-string `Error: File not found: missing.pptx`, which is
not the JSON error object the claim states it prints. -/
theorem missing_file_prints_plain_text :
    (runMain false "missing.pptx" envPrimaryOk "thumbnails" 4).stdout =
      "Error: File not found: missing.pptx" ∧
    (runMain false "missing.pptx" envPrimaryOk "thumbnails" 4).stdout ≠
      jsonFileNotFound "missing.pptx" := by
  constructor
  · rfl
  · decide

/-- C4 (amended): for every input path that does not exist, the program
prints the plain-text line `Error: File not found: <file>` — not a JSON
object — to standard output, exits with status 1, spawns no external
process, and writes no file. -/
theorem missing_file_behavior (file : String) (env : Env)
    ( output_prefix : String) (cols : Nat) :
    runMain false file env output_prefix cols =
      { stdout := "Error: File not found: " ++ file
        exitCode := 1
        spawned := 0
        filesWritten := [] } := rfl

/-- C5 counterexample: a run in which the pipeline fails (the renderer left
no PDF behind) prints the JSON error object to standard output but exits
with status 0, not the non-zero status the claim states. -/
theorem pipeline_failure_exits_zero :
    (runMain true "deck.pptx" envNoPdf "thumbnails" 4).stdout =
      jsonDumps (.err "PDF conversion failed: soffice wrote no pdf") ∧
    (runMain true "deck.pptx" envNoPdf "thumbnails" 4).exitCode = 0 := by
  constructor <;> rfl

/-- C5 (amended): for every run in which the pipeline fails by returning the
error payload, the program prints the JSON object with the error field to
standard output and leaves no partial output file behind — but it exits
with status 0, not a non-zero status. -/
theorem pipeline_error_run_behavior (env : Env) (file output_prefix : String)
    (cols : Nat) (msg : String)
    (h : (generate_thumbnails env output_prefix cols).1 =
      .returned (.err msg)) :
    (runMain true file env output_prefix cols).stdout =
      jsonDumps (.err msg) ∧
    (runMain true file env output_prefix cols).exitCode = 0 ∧
    (runMain true file env output_prefix cols).filesWritten = [] := by
  have hw := filesWritten_char env output_prefix cols
  rcases he : generate_thumbnails env output_prefix cols with ⟨o, t⟩
  rw [he] at h hw
  subst h
  simp only [Outcome.isSuccess, if_neg] at hw
  unfold runMain
  simp [he, hw]

theorem pipeline_error_run_behavior_witness :
    (generate_thumbnails envNoPdf "thumbnails" 4).1 =
      .returned (.err "PDF conversion failed: soffice wrote no pdf") ∧
    ((runMain true "deck.pptx" envNoPdf "thumbnails" 4).stdout =
       jsonDumps (.err "PDF conversion failed: soffice wrote no pdf") ∧
     (runMain true "deck.pptx" envNoPdf "thumbnails" 4).exitCode = 0 ∧
     (runMain true "deck.pptx" envNoPdf "thumbnails" 4).filesWritten = []) :=
  ⟨rfl, pipeline_error_run_behavior envNoPdf "deck.pptx" "thumbnails" 4
    "PDF conversion failed: soffice wrote no pdf" rfl⟩

/-- C6: the image at index i is placed at grid cell
(row = i // C, col = i % C) with its top-left corner at
(padding + col*(thumb_w+padding), padding + row*(thumb_h+padding+label_h) +
label_h), and the label drawn in that cell's label strip is exactly
`Slide i` with i the 0-indexed position, for every i in [0, N). -/
theorem cell_placement (images : List PILImage) (cols i : Nat)
    (hc : 1 ≤ cols) (hi : i < images.length) :
    (composeGrid images cols).cells[i]? =
      some { pasteX := padding + (i % cols) * (thumb_w + padding)
             pasteY := padding +
               (i / cols) * (thumbH (images.headD ⟨1, 1⟩) + padding + label_h) +
               label_h
             resizeW := thumb_w
             resizeH := thumbH (images.headD ⟨1, 1⟩)
             label := "Slide " ++ toString i
             labelX := padding + (i % cols) * (thumb_w + padding) + 4
             labelY := padding +
               (i / cols) * (thumbH (images.headD ⟨1, 1⟩) + padding + label_h) +
               2 } := by
  rw [composeGrid_cells_getElem images cols i hi]
  rfl

theorem cell_placement_witness :
    (1 ≤ 4 ∧
      5 < ([⟨4, 3⟩, ⟨4, 3⟩, ⟨4, 3⟩, ⟨4, 3⟩, ⟨4, 3⟩, ⟨4, 3⟩] : List PILImage).length) ∧
    (composeGrid [⟨4, 3⟩, ⟨4, 3⟩, ⟨4, 3⟩, ⟨4, 3⟩, ⟨4, 3⟩, ⟨4, 3⟩] 4).cells[5]? =
      some { pasteX := padding + (5 % 4) * (thumb_w + padding)
             pasteY := padding +
               (5 / 4) *
                 (thumbH (([⟨4, 3⟩, ⟨4, 3⟩, ⟨4, 3⟩, ⟨4, 3⟩, ⟨4, 3⟩, ⟨4, 3⟩] :
                     List PILImage).headD ⟨1, 1⟩) + padding + label_h) +
               label_h
             resizeW := thumb_w
             resizeH := thumbH (([⟨4, 3⟩, ⟨4, 3⟩, ⟨4, 3⟩, ⟨4, 3⟩, ⟨4, 3⟩, ⟨4, 3⟩] :
               List PILImage).headD ⟨1, 1⟩)
             label := "Slide " ++ toString 5
             labelX := padding + (5 % 4) * (thumb_w + padding) + 4
             labelY := padding +
               (5 / 4) *
                 (thumbH (([⟨4, 3⟩, ⟨4, 3⟩, ⟨4, 3⟩, ⟨4, 3⟩, ⟨4, 3⟩, ⟨4, 3⟩] :
                     List PILImage).headD ⟨1, 1⟩) + padding + label_h) +
               2 } :=
  ⟨⟨by decide, by decide⟩,
   cell_placement [⟨4, 3⟩, ⟨4, 3⟩, ⟨4, 3⟩, ⟨4, 3⟩, ⟨4, 3⟩, ⟨4, 3⟩] 4 5
     (by decide) (by decide)⟩

/-- C7 counterexample: the renderer exits non-zero yet produced the PDF, and
the pipeline does not fail with a ConversionError — it proceeds and
succeeds — so a non-zero renderer exit alone does not make the
page-rendering stage fail. -/
theorem renderer_nonzero_exit_not_failure :
    envNonzeroExit.soffice.returncode ≠ 0 ∧
    (generate_thumbnails envNonzeroExit "thumbnails" 4).1 =
      .returned (.ok "thumbnails.jpg" 1 "1x4") := by
  constructor
  · decide
  · have h : rowsOf 1 4 = 1 := by rw [rowsOf_eq 1 4 (by omega)]
    unfold generate_thumbnails
    simp [envNonzeroExit, envPrimaryOk, h]
    rfl

/-- C7 (amended): the page-rendering stage fails — returning the
ConversionError payload `PDF conversion failed: <renderer stderr>`, with
only the renderer spawned and nothing written — exactly when the renderer
did not time out and produced no matching PDF file; the renderer's exit
code is never consulted (the entire run is unchanged under any exit code);
and a renderer timeout does not surface as that error payload but as an
uncaught TimeoutExpired exception. -/
theorem page_render_failure_char (env : Env) (p : String) (c : Nat) (rc : Int) :
    (generate_thumbnails env p c =
        (.returned (.err ("PDF conversion failed: " ++ env.soffice.stderr)),
         ⟨1, false, false, []⟩) ↔
      env.soffice.timedOut = false ∧ env.pdfAtExpectedName = false ∧
        env.pdfGlobNonempty = false) ∧
    (generate_thumbnails env p c =
        (.raised "TimeoutExpired", ⟨1, false, false, []⟩) ↔
      env.soffice.timedOut = true) ∧
    generate_thumbnails
        { env with soffice := { env.soffice with returncode := rc } } p c =
      generate_thumbnails env p c := by
  refine ⟨?_, ?_, rfl⟩ <;>
    · unfold generate_thumbnails
      repeat' split
      all_goals simp_all

/-- C8: every pipeline run returns exactly one of two mutually exclusive
result variants — the success payload or the error payload, never both —
and the output canvas file is written exactly on the path returning the
success variant: no file write occurs before or on any error return. -/
theorem result_variants_write_discipline (env : Env) (p : String) (c : Nat) :
    (∀ r : PipelineResult, r.isOk = !r.isErr) ∧
    (generate_thumbnails env p c).2.filesWritten =
      (if (generate_thumbnails env p c).1.isSuccess = true
       then [(p ++ ".jpg",
              composeGrid
                (if env.jpegImages.isEmpty then env.pngImages else env.jpegImages)
                c)]
       else []) :=
  ⟨fun r => by cases r <;> rfl, filesWritten_char env p c⟩

/-- C9: when the primary jpeg extraction yields zero files and the png
fallback yields M > 0 files, the pipeline succeeds; the canvas written is
`composeGrid` applied to the fallback image sequence and the column count —
a function of those two alone — and both the returned result and the
written files are identical to those of a run in which the same image
sequence had been produced by the primary attempt. -/
theorem fallback_run_equivalence (env : Env) (p : String) (c : Nat)
    (hpdf : env.pdfAtExpectedName = true ∨ env.pdfGlobNonempty = true)
    (ht1 : env.soffice.timedOut = false)
    (ht2 : env.pdftoppmJpeg.timedOut = false)
    (ht3 : env.pdftoppmPng.timedOut = false)
    (hj : env.jpegImages = [])
    (hp : env.pngImages ≠ []) :
    (generate_thumbnails env p c).1 =
      .returned (.ok (p ++ ".jpg") env.pngImages.length
        (toString (rowsOf env.pngImages.length c) ++ "x" ++ toString c)) ∧
    (generate_thumbnails env p c).2.filesWritten =
      [(p ++ ".jpg", composeGrid env.pngImages c)] ∧
    (generate_thumbnails env p c).1 =
      (generate_thumbnails
        { env with jpegImages := env.pngImages, pngImages := [] } p c).1 ∧
    (generate_thumbnails env p c).2.filesWritten =
      (generate_thumbnails
        { env with jpegImages := env.pngImages, pngImages := [] } p c).2.filesWritten := by
  have hcond : ¬ (env.pdfAtExpectedName = false ∧ env.pdfGlobNonempty = false) := by
    rcases hpdf with h | h <;> simp [h]
  unfold generate_thumbnails
  rcases hpi : env.pngImages with _ | ⟨q, qs⟩
  · exact absurd hpi hp
  · simp [ht1, ht2, ht3, hcond, hj, hpi]

theorem fallback_run_equivalence_witness :
    ((envFallbackOk.pdfAtExpectedName = true ∨ envFallbackOk.pdfGlobNonempty = true) ∧
     envFallbackOk.soffice.timedOut = false ∧
     envFallbackOk.pdftoppmJpeg.timedOut = false ∧
     envFallbackOk.pdftoppmPng.timedOut = false ∧
     envFallbackOk.jpegImages = [] ∧ envFallbackOk.pngImages ≠ []) ∧
    ((generate_thumbnails envFallbackOk "thumbnails" 4).1 =
       .returned (.ok ("thumbnails" ++ ".jpg") envFallbackOk.pngImages.length
         (toString (rowsOf envFallbackOk.pngImages.length 4) ++ "x" ++ toString 4)) ∧
     (generate_thumbnails envFallbackOk "thumbnails" 4).2.filesWritten =
       [("thumbnails" ++ ".jpg", composeGrid envFallbackOk.pngImages 4)] ∧
     (generate_thumbnails envFallbackOk "thumbnails" 4).1 =
       (generate_thumbnails
         { envFallbackOk with
           jpegImages := envFallbackOk.pngImages, pngImages := [] }
         "thumbnails" 4).1 ∧
     (generate_thumbnails envFallbackOk "thumbnails" 4).2.filesWritten =
       (generate_thumbnails
         { envFallbackOk with
           jpegImages := envFallbackOk.pngImages, pngImages := [] }
         "thumbnails" 4).2.filesWritten) :=
  ⟨⟨Or.inl rfl, rfl, rfl, rfl, rfl, by decide⟩,
   fallback_run_equivalence envFallbackOk "thumbnails" 4
     (Or.inl rfl) rfl rfl rfl rfl (by decide)⟩

/-- C10: every painted cell lies fully inside the canvas: for every index
i < N (C ≥ 1), the cell's pasted thumbnail ends at or before the right
canvas edge (x + thumb_w ≤ canvas_w) and its bottom — the cell origin plus
the label strip plus the thumbnail height — ends at or before the bottom
canvas edge (y + label_h + thumb_h ≤ canvas_h). -/
theorem cells_within_canvas (images : List PILImage) (cols i : Nat)
    (hc : 1 ≤ cols) (hi : i < images.length) :
    (composeGrid images cols).cells[i]? =
      some (cellPaint (thumbH (images.headD ⟨1, 1⟩)) cols i) ∧
    (cellPaint (thumbH (images.headD ⟨1, 1⟩)) cols i).pasteX + thumb_w ≤
      (composeGrid images cols).width ∧
    (cellPaint (thumbH (images.headD ⟨1, 1⟩)) cols i).pasteY +
        (cellPaint (thumbH (images.headD ⟨1, 1⟩)) cols i).resizeH ≤
      (composeGrid images cols).height := by
  refine ⟨composeGrid_cells_getElem images cols i hi, ?_, ?_⟩
  · simp only [cellPaint, composeGrid, gridW, thumb_w, padding]
    have hmod : i % cols < cols := Nat.mod_lt i (by omega)
    have hstep : (i % cols) * (400 + 10) + (400 + 10) ≤ cols * (400 + 10) := by
      have h1 : i % cols + 1 ≤ cols := hmod
      calc (i % cols) * (400 + 10) + (400 + 10)
          = (i % cols + 1) * (400 + 10) := by ring
        _ ≤ cols * (400 + 10) := Nat.mul_le_mul_right _ h1
    omega
  · simp only [cellPaint, composeGrid, gridH, padding, label_h]
    have hr : i / cols + 1 ≤ rowsOf images.length cols := by
      rw [rowsOf_eq _ _ (by omega)]
      have h1 : i / cols ≤ (images.length - 1) / cols :=
        Nat.div_le_div_right (by omega)
      have h2 : (images.length + cols - 1) / cols =
          (images.length - 1) / cols + 1 := by
        have h3 : images.length + cols - 1 = (images.length - 1) + cols := by
          omega
        rw [h3, Nat.add_div_right _ (by omega)]
      omega
    set th := thumbH (images.headD ⟨1, 1⟩) with hth
    have hmul : (i / cols + 1) * (th + 10 + 20) ≤
        rowsOf images.length cols * (th + 10 + 20) :=
      Nat.mul_le_mul_right _ hr
    have hd : (i / cols + 1) * (th + 10 + 20) =
        (i / cols) * (th + 10 + 20) + (th + 10 + 20) := by ring
    omega

theorem cells_within_canvas_witness :
    (1 ≤ 4 ∧
      5 < ([⟨4, 3⟩, ⟨4, 3⟩, ⟨4, 3⟩, ⟨4, 3⟩, ⟨4, 3⟩, ⟨4, 3⟩] : List PILImage).length) ∧
    ((composeGrid [⟨4, 3⟩, ⟨4, 3⟩, ⟨4, 3⟩, ⟨4, 3⟩, ⟨4, 3⟩, ⟨4, 3⟩] 4).cells[5]? =
       some (cellPaint
         (thumbH (([⟨4, 3⟩, ⟨4, 3⟩, ⟨4, 3⟩, ⟨4, 3⟩, ⟨4, 3⟩, ⟨4, 3⟩] :
           List PILImage).headD ⟨1, 1⟩)) 4 5) ∧
     (cellPaint (thumbH (([⟨4, 3⟩, ⟨4, 3⟩, ⟨4, 3⟩, ⟨4, 3⟩, ⟨4, 3⟩, ⟨4, 3⟩] :
         List PILImage).headD ⟨1, 1⟩)) 4 5).pasteX + thumb_w ≤
       (composeGrid [⟨4, 3⟩, ⟨4, 3⟩, ⟨4, 3⟩, ⟨4, 3⟩, ⟨4, 3⟩, ⟨4, 3⟩] 4).width ∧
     (cellPaint (thumbH (([⟨4, 3⟩, ⟨4, 3⟩, ⟨4, 3⟩, ⟨4, 3⟩, ⟨4, 3⟩, ⟨4, 3⟩] :
         List PILImage).headD ⟨1, 1⟩)) 4 5).pasteY +
         (cellPaint (thumbH (([⟨4, 3⟩, ⟨4, 3⟩, ⟨4, 3⟩, ⟨4, 3⟩, ⟨4, 3⟩, ⟨4, 3⟩] :
           List PILImage).headD ⟨1, 1⟩)) 4 5).resizeH ≤
       (composeGrid [⟨4, 3⟩, ⟨4, 3⟩, ⟨4, 3⟩, ⟨4, 3⟩, ⟨4, 3⟩, ⟨4, 3⟩] 4).height) :=
  ⟨⟨by decide, by decide⟩,
   cells_within_canvas [⟨4, 3⟩, ⟨4, 3⟩, ⟨4, 3⟩, ⟨4, 3⟩, ⟨4, 3⟩, ⟨4, 3⟩] 4 5
     (by decide) (by decide)⟩
